import Mathlib

/-!
# Verification of the moltworker sandbox supervisor routes

Shallow embedding of the public HTTP route handlers of the repository
(`src/unnamed/part_000`, `src/unnamed/part_001`): the factory-reset
orchestrator, the status/health prober, and the diagnostics collector,
together with a small model of the sandbox execution environment they
drive (process start, log reading, kill-all, TCP port probing) and of
the filesystem effect of the `rm -rf` wipe commands they issue.
-/

/-- Stdout/stderr captured from a sandbox process (`proc.getLogs()`). -/
structure Logs where
  stdout : String
  stderr : String
deriving DecidableEq, Repr

/-- An opaque handle to a running sandbox process, as returned by
`findExistingMoltbotProcess`. -/
structure ProcHandle where
  id : String
deriving DecidableEq, Repr

/-- One observable operation issued against the sandbox collaborator. -/
inductive SbOp where
  | startProcess (cmd : String)
  | getLogs (cmd : String)
  | killAll
  | findProcess
  | waitForPort (processId : String) (port : Nat) (timeoutMs : Nat)
deriving DecidableEq, Repr

/-- The exact local wipe command string of the reset handlers
(`sandbox.startProcess('rm -rf /root/.openclaw /root/.clawdbot')`). -/
def localWipeCmd : String := "rm -rf /root/.openclaw /root/.clawdbot"

/-- The exact backup-volume wipe command string of the reset handlers. -/
def backupWipeCmd : String :=
  "rm -rf /data/moltbot/openclaw /data/moltbot/clawdbot /data/moltbot/.last-sync /data/moltbot/openclaw.json /data/moltbot/clawdbot.json"

/-- The config-read command of the diagnose handler. -/
def catConfigCmd : String := "cat /root/.openclaw/openclaw.json"

/-- The environment-dump command of the diagnose handler. -/
def envCmd : String := "env"

/-- The backup-volume listing command of the diagnose handler. -/
def lsR2Cmd : String := "ls -la /data/moltbot"

/-- The local config-dir listing command of the diagnose handler. -/
def lsLocalCmd : String := "ls -la /root/.openclaw"

/-- The argument paths of `localWipeCmd`. -/
def localWipeTargets : List String := ["/root/.openclaw", "/root/.clawdbot"]

/-- The argument paths of `backupWipeCmd`. -/
def backupWipeTargets : List String :=
  ["/data/moltbot/openclaw", "/data/moltbot/clawdbot", "/data/moltbot/.last-sync",
   "/data/moltbot/openclaw.json", "/data/moltbot/clawdbot.json"]

/-- All paths named by the two wipe commands. -/
def wipeTargets : List String := localWipeTargets ++ backupWipeTargets

/-- Join strings with single spaces (to relate a command string to its
argument list by computation). -/
def joinSpace : List String → String
  | [] => ""
  | [a] => a
  | a :: rest => a ++ " " ++ joinSpace rest

/-- Structural string-prefix test (on the character lists). -/
def strIsPrefixOf (a b : String) : Bool := a.data.isPrefixOf b.data

/-- `isUnder t p`: path `p` is removed by `rm -rf t` — it is `t` itself or
lies strictly below the directory `t`. -/
def isUnder (t p : String) : Bool := p == t || strIsPrefixOf (t ++ "/") p

/-- Effect of `rm -rf targets` on a filesystem (a path-membership map):
every path at or under a named target is gone, all others untouched. -/
def rmRf (targets : List String) (fs : String → Bool) : String → Bool :=
  fun p => fs p && !(targets.any fun t => isUnder t p)

/-- Filesystem effect of running one sandbox command: the two wipe
commands perform their recursive removals; every other command issued by
these handlers (`cat`, `env`, `ls`) is read-only. -/
def runCmd (cmd : String) (fs : String → Bool) : String → Bool :=
  if cmd == localWipeCmd then rmRf localWipeTargets fs
  else if cmd == backupWipeCmd then rmRf backupWipeTargets fs
  else fs

/-- Model of the sandbox collaborator for one handler invocation: the
filesystem it holds, and oracles saying which primitives throw (with the
thrown message), what each command logs, and how the probe behaves. -/
structure Sandbox where
  fs : String → Bool
  startProcessThrows : String → Option String
  getLogsThrows : String → Option String
  logsFor : String → Logs
  killAllThrows : Option String
  findProcess : Except String (Option ProcHandle)
  waitForPortOk : Bool

/-- JSON body (plus HTTP status) returned by the reset handlers. -/
structure ResetJson where
  status : String
  message : String
  httpStatus : Nat
deriving DecidableEq, Repr

/-- The success response of both reset handlers. -/
def resetOkJson : ResetJson :=
  { status := "ok"
    message := "Factory reset initiated. Gateway will restart and onboard freshly on next request."
    httpStatus := 200 }

/-- The catch-all failure response of both reset handlers (`c.json(..., 500)`). -/
def resetErrJson (msg : String) : ResetJson :=
  { status := "error", message := msg, httpStatus := 500 }

/-- Result of one reset-handler invocation: the HTTP response, the sandbox
operations issued in order, and the filesystem afterwards. -/
structure ResetRun where
  response : ResetJson
  trace : List SbOp
  fs : String → Bool

/-- The `/reset-factory-defaults` handler of `src/unnamed/part_001`
(lines 72–108): wipe local config (own try/catch), wipe backup volume
(own try/catch), then `killAllMoltbotProcesses` under the outer
try/catch only. -/
def resetHandler_001 (sb : Sandbox) : ResetRun :=
  let fs1 :=
    match sb.startProcessThrows localWipeCmd with
    | some _ => sb.fs
    | none => runCmd localWipeCmd sb.fs
  let fs2 :=
    match sb.startProcessThrows backupWipeCmd with
    | some _ => fs1
    | none => runCmd backupWipeCmd fs1
  let tr := [SbOp.startProcess localWipeCmd, SbOp.startProcess backupWipeCmd, SbOp.killAll]
  match sb.killAllThrows with
  | some msg => { response := resetErrJson msg, trace := tr, fs := fs2 }
  | none => { response := resetOkJson, trace := tr, fs := fs2 }

/-- The `/reset-factory-defaults` handler of `src/unnamed/part_000`
(lines 72–101): `killAllMoltbotProcesses` first, then the two wipes, all
under one try/catch — any throw aborts the remaining steps. -/
def resetHandler_000 (sb : Sandbox) : ResetRun :=
  match sb.killAllThrows with
  | some msg => { response := resetErrJson msg, trace := [SbOp.killAll], fs := sb.fs }
  | none =>
    match sb.startProcessThrows localWipeCmd with
    | some msg =>
      { response := resetErrJson msg
        trace := [SbOp.killAll, SbOp.startProcess localWipeCmd]
        fs := sb.fs }
    | none =>
      let fs1 := runCmd localWipeCmd sb.fs
      match sb.startProcessThrows backupWipeCmd with
      | some msg =>
        { response := resetErrJson msg
          trace := [SbOp.killAll, SbOp.startProcess localWipeCmd, SbOp.startProcess backupWipeCmd]
          fs := fs1 }
      | none =>
        { response := resetOkJson
          trace := [SbOp.killAll, SbOp.startProcess localWipeCmd, SbOp.startProcess backupWipeCmd]
          fs := runCmd backupWipeCmd fs1 }

/-- JSON body returned by `/api/status`. -/
structure StatusJson where
  ok : Bool
  status : String
  processId : Option String
  error : Option String
deriving DecidableEq, Repr

/-- Result of one status-handler invocation. -/
structure StatusRun where
  response : StatusJson
  trace : List SbOp

/-- The `/api/status` handler (identical in both parts, lines 34–58):
find the gateway process; if absent answer `not_running`; otherwise probe
`waitForPort(18789, {mode:'tcp', timeout:5000})`, answering `running` on
success and `not_responding` on timeout/error; a throw from the lookup is
caught by the outer handler and reported as `error`. -/
def statusHandler (sb : Sandbox) : StatusRun :=
  match sb.findProcess with
  | Except.error msg =>
    { response := { ok := false, status := "error", processId := none, error := some msg }
      trace := [SbOp.findProcess] }
  | Except.ok none =>
    { response := { ok := false, status := "not_running", processId := none, error := none }
      trace := [SbOp.findProcess] }
  | Except.ok (some p) =>
    if sb.waitForPortOk then
      { response := { ok := true, status := "running", processId := some p.id, error := none }
        trace := [SbOp.findProcess, SbOp.waitForPort p.id 18789 5000] }
    else
      { response := { ok := false, status := "not_responding", processId := some p.id, error := none }
        trace := [SbOp.findProcess, SbOp.waitForPort p.id 18789 5000] }

/-- The successful diagnose snapshot fields. -/
structure DiagOk where
  config : String
  env : String
  lsR2 : String
  lsLocal : String
  envConfig : String
deriving DecidableEq, Repr

/-- Response of the `/diagnose` handler: the snapshot, or the catch-all
`{error}` body with HTTP 500. -/
inductive DiagResponse where
  | ok (d : DiagOk)
  | error (msg : String)
deriving DecidableEq, Repr

/-- Result of one diagnose invocation. -/
structure DiagRun where
  response : DiagResponse
  trace : List SbOp

/-- One read of the diagnose handler: `startProcess cmd` then
`proc.getLogs()`; a throw from either aborts with the message. -/
def readCmd (sb : Sandbox) (cmd : String) : Except String Logs :=
  match sb.startProcessThrows cmd with
  | some msg => Except.error msg
  | none =>
    match sb.getLogsThrows cmd with
    | some msg => Except.error msg
    | none => Except.ok (sb.logsFor cmd)

/-- The sandbox operations one read issues (the log read happens only if
the process start did not throw). -/
def readOps (sb : Sandbox) (cmd : String) : List SbOp :=
  match sb.startProcessThrows cmd with
  | some _ => [SbOp.startProcess cmd]
  | none => [SbOp.startProcess cmd, SbOp.getLogs cmd]

/-- JavaScript truthiness of the `MOLTBOT_GATEWAY_TOKEN` binding:
falsy when absent or the empty string. -/
def truthy : Option String → Bool
  | none => false
  | some s => s ≠ ""

/-- The `/diagnose` handler of `src/unnamed/part_001` (lines 111–139):
four sequential reads (config file, env dump, backup listing, local
listing) inside one try/catch, then the snapshot whose `envConfig` field
is `'Has TOKEN env'` or `'No TOKEN env'` by the token's truthiness. -/
def diagnoseHandler (sb : Sandbox) (token : Option String) : DiagRun :=
  match readCmd sb catConfigCmd with
  | Except.error msg => { response := DiagResponse.error msg, trace := readOps sb catConfigCmd }
  | Except.ok configLogs =>
    match readCmd sb envCmd with
    | Except.error msg =>
      { response := DiagResponse.error msg
        trace := readOps sb catConfigCmd ++ readOps sb envCmd }
    | Except.ok envLogs =>
      match readCmd sb lsR2Cmd with
      | Except.error msg =>
        { response := DiagResponse.error msg
          trace := readOps sb catConfigCmd ++ readOps sb envCmd ++ readOps sb lsR2Cmd }
      | Except.ok lsR2Logs =>
        match readCmd sb lsLocalCmd with
        | Except.error msg =>
          { response := DiagResponse.error msg
            trace := readOps sb catConfigCmd ++ readOps sb envCmd ++ readOps sb lsR2Cmd ++
              readOps sb lsLocalCmd }
        | Except.ok lsLocalLogs =>
          { response := DiagResponse.ok
              { config := configLogs.stdout
                env := envLogs.stdout
                lsR2 := lsR2Logs.stdout
                lsLocal := lsLocalLogs.stdout
                envConfig := if truthy token then "Has TOKEN env" else "No TOKEN env" }
            trace := readOps sb catConfigCmd ++ readOps sb envCmd ++ readOps sb lsR2Cmd ++
              readOps sb lsLocalCmd }

/-- How a route registration constrains the HTTP method: the reset route
is registered with `publicRoutes.all(...)`, the others with `.get(...)`. -/
inductive RouteMethod where
  | all
  | get
deriving DecidableEq, Repr

/-- The method registration of `/reset-factory-defaults` in the source:
`publicRoutes.all('/reset-factory-defaults', ...)`. -/
def resetRouteMethod : RouteMethod := RouteMethod.all

/-- Hono method dispatch: `.all` matches every method, `.get` only GET. -/
def routeMatches : RouteMethod → String → Bool
  | RouteMethod.all, _ => true
  | RouteMethod.get, m => m == "GET"

/-- `envConfig` flag erased, for comparing diagnose snapshots up to the
token-presence flag. -/
def eraseFlag : DiagResponse → DiagResponse
  | DiagResponse.ok d => DiagResponse.ok { d with envConfig := "" }
  | DiagResponse.error m => DiagResponse.error m

/-- The `envConfig` flag of a diagnose response, when there is one. -/
def flagOf : DiagResponse → Option String
  | DiagResponse.ok d => some d.envConfig
  | DiagResponse.error _ => none

/-- Does a status response's trace probe the port? -/
def isWaitForPort : SbOp → Bool
  | SbOp.waitForPort _ _ _ => true
  | _ => false

/-- A sandbox in which every primitive succeeds: the filesystem holds a
config file plus an unrelated file, no primitive throws, no gateway
process exists, and the probe would succeed. -/
def sbAllOk : Sandbox :=
  { fs := fun p => p == "/root/.openclaw/openclaw.json" || p == "/root/keepme"
    startProcessThrows := fun _ => none
    getLogsThrows := fun _ => none
    logsFor := fun _ => { stdout := "", stderr := "" }
    killAllThrows := none
    findProcess := Except.ok none
    waitForPortOk := true }

/-- Like `sbAllOk` but `killAllMoltbotProcesses` throws. -/
def sbKillFails : Sandbox := { sbAllOk with killAllThrows := some "kill failed" }

/-- Like `sbAllOk` but the local wipe's `startProcess` throws. -/
def sbLocalWipeFails : Sandbox :=
  { sbAllOk with
    startProcessThrows := fun cmd => if cmd == localWipeCmd then some "permission denied" else none }

/-- Like `sbAllOk` but the env-dump read's `startProcess` throws. -/
def sbEnvReadFails : Sandbox :=
  { sbAllOk with
    startProcessThrows := fun cmd => if cmd == envCmd then some "sandbox failure" else none }

/-- Like `sbAllOk` but a gateway process exists and never answers the probe. -/
def sbNotResponding : Sandbox :=
  { sbAllOk with findProcess := Except.ok (some { id := "proc-1" }), waitForPortOk := false }

/-- Pointwise reading of `rmRf`. -/
theorem rmRf_pointwise (targets : List String) (fs : String → Bool) (p : String) :
    rmRf targets fs p = (fs p && !(targets.any fun t => isUnder t p)) := rfl

/-- `rm -rf` leaves untouched every path outside its targets. -/
theorem rmRf_frame (targets : List String) (fs : String → Bool) (p : String)
    (h : targets.all (fun t => !(isUnder t p)) = true) : rmRf targets fs p = fs p := by
  have hany : (targets.any fun t => isUnder t p) = false := by
    rw [List.any_eq_false]
    intro t ht
    have := (List.all_eq_true.mp h) t ht
    simpa using this
  simp [rmRf, hany]

/-- Two successive `rm -rf` runs behave as one run on the combined target list. -/
theorem rmRf_append (ts1 ts2 : List String) (fs : String → Bool) (p : String) :
    rmRf ts2 (rmRf ts1 fs) p = (fs p && !((ts1 ++ ts2).any fun t => isUnder t p)) := by
  simp [rmRf, List.any_append, Bool.not_or, Bool.and_assoc]

/-- Running the local wipe command performs the local removal. -/
theorem runCmd_local (fs : String → Bool) : runCmd localWipeCmd fs = rmRf localWipeTargets fs := by
  simp [runCmd]

/-- Running the backup wipe command performs the backup removal. -/
theorem runCmd_backup (fs : String → Bool) :
    runCmd backupWipeCmd fs = rmRf backupWipeTargets fs := by
  have h : (backupWipeCmd == localWipeCmd) = false := by decide
  simp [runCmd, h]

/-- One wipe phase's filesystem effect, by the phase's throw oracle: a
throwing `startProcess` leaves the filesystem alone, a successful one
performs the removal. -/
def wipeStep (o : Option String) (targets : List String) (fs : String → Bool) : String → Bool :=
  match o with
  | some _ => fs
  | none => rmRf targets fs

/-- The filesystem left by the `part_001` reset, characterized by the two
wipe-phase throw oracles. -/
theorem resetHandler_001_fs (sb : Sandbox) :
    (resetHandler_001 sb).fs =
      wipeStep (sb.startProcessThrows backupWipeCmd) backupWipeTargets
        (wipeStep (sb.startProcessThrows localWipeCmd) localWipeTargets sb.fs) := by
  cases hk : sb.killAllThrows <;> cases hl : sb.startProcessThrows localWipeCmd <;>
    cases hb : sb.startProcessThrows backupWipeCmd <;>
    simp [resetHandler_001, wipeStep, runCmd_local, runCmd_backup, hk, hl, hb]

/-- Applying the two wipe phases twice (with the same throw behavior)
changes nothing over applying them once. -/
theorem wipeSteps_idem (o1 o2 : Option String) (fs : String → Bool) (p : String) :
    wipeStep o2 backupWipeTargets (wipeStep o1 localWipeTargets
      (wipeStep o2 backupWipeTargets (wipeStep o1 localWipeTargets fs))) p =
    wipeStep o2 backupWipeTargets (wipeStep o1 localWipeTargets fs) p := by
  cases o1 <;> cases o2 <;> simp only [wipeStep, rmRf_pointwise] <;>
    cases hfp : fs p <;> cases ha : (localWipeTargets.any fun t => isUnder t p) <;>
    cases hbb : (backupWipeTargets.any fun t => isUnder t p) <;> simp

/-- C1 (counterexample): the claim fails on the `part_000` reset handler:
on a fully succeeding sandbox it issues the terminate/kill call first,
strictly before either wipe command. -/
theorem C1_counterexample :
    (resetHandler_000 sbAllOk).trace =
      [SbOp.killAll, SbOp.startProcess localWipeCmd, SbOp.startProcess backupWipeCmd] ∧
    (resetHandler_000 sbAllOk).trace.indexOf SbOp.killAll <
      (resetHandler_000 sbAllOk).trace.indexOf (SbOp.startProcess localWipeCmd) := by
  decide

/-- C1 (amended): in the `part_001` reset handler, on every execution the
local wipe and the backup wipe are both issued and awaited before the
terminate call is issued — the trace is always exactly wipe-local,
wipe-backup, kill, whatever succeeds or throws. -/
theorem C1_wipes_before_terminate_001 (sb : Sandbox) :
    (resetHandler_001 sb).trace =
      [SbOp.startProcess localWipeCmd, SbOp.startProcess backupWipeCmd, SbOp.killAll] := by
  cases h : sb.killAllThrows <;> simp [resetHandler_001, h]

/-- C2 (counterexample): in the `part_001` reset handler a terminate-phase
failure is not caught at its own boundary: with both wipes succeeding and
`killAllMoltbotProcesses` throwing, the response is `error` with HTTP 500,
not `ok`. -/
theorem C2_counterexample :
    (resetHandler_001 sbKillFails).response.status = "error" ∧
    (resetHandler_001 sbKillFails).response.httpStatus = 500 ∧
    (resetHandler_001 sbKillFails).trace =
      [SbOp.startProcess localWipeCmd, SbOp.startProcess backupWipeCmd, SbOp.killAll] := by
  decide

/-- C2 (amended): all three phases are attempted on every invocation; the
two wipe phases' failures are caught at their own boundaries and never
change the response, which is `ok` exactly when the terminate phase does
not throw and the 500 `error` body carrying the thrown message otherwise. -/
theorem C2_phase_independence_001 (sb : Sandbox) :
    (resetHandler_001 sb).trace =
      [SbOp.startProcess localWipeCmd, SbOp.startProcess backupWipeCmd, SbOp.killAll] ∧
    (resetHandler_001 sb).response =
      (match sb.killAllThrows with
       | none => resetOkJson
       | some msg => resetErrJson msg) := by
  cases h : sb.killAllThrows <;> simp [resetHandler_001, h]

/-- C3: the diagnose snapshot never depends on the gateway token except
through the `envConfig` presence flag: two runs on the same sandbox state
that differ only in the token value have identical traces and identical
responses apart from that flag, and the flag is always one of the two
constant strings chosen by the token's truthiness. -/
theorem C3_token_noninterference (sb : Sandbox) (t1 t2 : Option String) :
    eraseFlag (diagnoseHandler sb t1).response = eraseFlag (diagnoseHandler sb t2).response ∧
    (diagnoseHandler sb t1).trace = (diagnoseHandler sb t2).trace ∧
    (flagOf (diagnoseHandler sb t1).response = none ∨
     flagOf (diagnoseHandler sb t1).response =
       some (if truthy t1 then "Has TOKEN env" else "No TOKEN env")) := by
  cases h1 : readCmd sb catConfigCmd <;> cases h2 : readCmd sb envCmd <;>
    cases h3 : readCmd sb lsR2Cmd <;> cases h4 : readCmd sb lsLocalCmd <;>
    simp [diagnoseHandler, h1, h2, h3, h4, eraseFlag, flagOf]

/-- C4 (counterexample): the diagnose reads are not independent at the
sandbox-primitive level: when the env-dump read throws, the handler
answers the 500 `error` body and the two directory-listing reads are
never attempted. -/
theorem C4_counterexample :
    (diagnoseHandler sbEnvReadFails none).response = DiagResponse.error "sandbox failure" ∧
    (diagnoseHandler sbEnvReadFails none).trace.contains (SbOp.startProcess lsR2Cmd) = false ∧
    (diagnoseHandler sbEnvReadFails none).trace.contains (SbOp.startProcess lsLocalCmd) = false := by
  decide

/-- C4 (amended): as long as the sandbox primitives themselves do not
throw, all four diagnose reads are attempted and all four results are
returned, whatever output each command produced — a command that merely
fails (absent config file, empty stdout) never prevents the other reads. -/
theorem C4_reads_attempted_when_primitives_ok (sb : Sandbox) (token : Option String)
    (h1 : sb.startProcessThrows catConfigCmd = none) (h2 : sb.getLogsThrows catConfigCmd = none)
    (h3 : sb.startProcessThrows envCmd = none) (h4 : sb.getLogsThrows envCmd = none)
    (h5 : sb.startProcessThrows lsR2Cmd = none) (h6 : sb.getLogsThrows lsR2Cmd = none)
    (h7 : sb.startProcessThrows lsLocalCmd = none) (h8 : sb.getLogsThrows lsLocalCmd = none) :
    (diagnoseHandler sb token).response = DiagResponse.ok
      { config := (sb.logsFor catConfigCmd).stdout
        env := (sb.logsFor envCmd).stdout
        lsR2 := (sb.logsFor lsR2Cmd).stdout
        lsLocal := (sb.logsFor lsLocalCmd).stdout
        envConfig := if truthy token then "Has TOKEN env" else "No TOKEN env" } ∧
    (diagnoseHandler sb token).trace =
      [SbOp.startProcess catConfigCmd, SbOp.getLogs catConfigCmd,
       SbOp.startProcess envCmd, SbOp.getLogs envCmd,
       SbOp.startProcess lsR2Cmd, SbOp.getLogs lsR2Cmd,
       SbOp.startProcess lsLocalCmd, SbOp.getLogs lsLocalCmd] := by
  simp [diagnoseHandler, readCmd, readOps, h1, h2, h3, h4, h5, h6, h7, h8]

/-- C4 witness: the amended theorem applied to a concrete sandbox whose
config file read returns empty output. -/
theorem C4_witness :
    (diagnoseHandler sbAllOk none).response = DiagResponse.ok
      { config := "", env := "", lsR2 := "", lsLocal := "", envConfig := "No TOKEN env" } ∧
    (diagnoseHandler sbAllOk none).trace =
      [SbOp.startProcess catConfigCmd, SbOp.getLogs catConfigCmd,
       SbOp.startProcess envCmd, SbOp.getLogs envCmd,
       SbOp.startProcess lsR2Cmd, SbOp.getLogs lsR2Cmd,
       SbOp.startProcess lsLocalCmd, SbOp.getLogs lsLocalCmd] :=
  C4_reads_attempted_when_primitives_ok sbAllOk none rfl rfl rfl rfl rfl rfl rfl rfl

/-- C5: when the gateway process lookup finds no process, the status
handler answers exactly `{ok: false, status: 'not_running'}` and its
trace contains no `waitForPort` probe. -/
theorem C5_not_running_no_probe (sb : Sandbox) (h : sb.findProcess = Except.ok none) :
    (statusHandler sb).response =
      { ok := false, status := "not_running", processId := none, error := none } ∧
    (statusHandler sb).trace.all (fun op => !(isWaitForPort op)) = true := by
  simp [statusHandler, h, isWaitForPort]

/-- C5 witness: the theorem applied to a concrete sandbox holding no
gateway process. -/
theorem C5_witness :
    (statusHandler sbAllOk).response =
      { ok := false, status := "not_running", processId := none, error := none } ∧
    (statusHandler sbAllOk).trace.all (fun op => !(isWaitForPort op)) = true :=
  C5_not_running_no_probe sbAllOk rfl

/-- C6: when a gateway process is found but the 5-second TCP probe at port
18789 times out or errors, the handler answers the well-formed body
`{ok: false, status: 'not_responding', processId}` — the failed probe is
handled, not propagated. -/
theorem C6_not_responding_handled (sb : Sandbox) (p : ProcHandle)
    (hf : sb.findProcess = Except.ok (some p)) (hw : sb.waitForPortOk = false) :
    (statusHandler sb).response =
      { ok := false, status := "not_responding", processId := some p.id, error := none } ∧
    (statusHandler sb).trace = [SbOp.findProcess, SbOp.waitForPort p.id 18789 5000] := by
  simp [statusHandler, hf, hw]

/-- C6 witness: the theorem applied to a concrete sandbox holding a
process whose port never opens. -/
theorem C6_witness :
    (statusHandler sbNotResponding).response =
      { ok := false, status := "not_responding", processId := some "proc-1", error := none } ∧
    (statusHandler sbNotResponding).trace =
      [SbOp.findProcess, SbOp.waitForPort "proc-1" 18789 5000] :=
  C6_not_responding_handled sbNotResponding { id := "proc-1" } rfl rfl

/-- C7: the wipes of the `part_001` reset act on exactly the declared
fixed path set: the two command strings are precisely `rm -rf` applied to
the declared argument lists with no glob metacharacter anywhere; every
path outside (not at or under) the seven declared targets is left
unchanged by the reset in every sandbox state; and when both wipe
commands run, a path survives exactly when it was present and is outside
the declared set. -/
theorem C7_wipe_exact_scope (sb : Sandbox) (p : String) :
    localWipeCmd = "rm -rf " ++ joinSpace localWipeTargets ∧
    backupWipeCmd = "rm -rf " ++ joinSpace backupWipeTargets ∧
    (localWipeCmd ++ " " ++ backupWipeCmd).data.all
      (fun ch => !(ch == '*' || ch == '?' || ch == '[')) = true ∧
    (wipeTargets.all (fun t => !(isUnder t p)) = true →
      (resetHandler_001 sb).fs p = sb.fs p) ∧
    (sb.startProcessThrows localWipeCmd = none →
      sb.startProcessThrows backupWipeCmd = none →
      (resetHandler_001 sb).fs p = (sb.fs p && !(wipeTargets.any fun t => isUnder t p))) := by
  refine ⟨by decide, by decide, by decide, ?_, ?_⟩
  · intro hout
    have houtL : localWipeTargets.all (fun t => !(isUnder t p)) = true := by
      rw [List.all_eq_true] at hout ⊢
      intro t ht
      exact hout t (by simp [wipeTargets, ht])
    have houtB : backupWipeTargets.all (fun t => !(isUnder t p)) = true := by
      rw [List.all_eq_true] at hout ⊢
      intro t ht
      exact hout t (by simp [wipeTargets, ht])
    rw [resetHandler_001_fs]
    cases hl : sb.startProcessThrows localWipeCmd <;>
      cases hb : sb.startProcessThrows backupWipeCmd <;>
      simp [wipeStep, hl, hb, rmRf_frame _ _ _ houtL, rmRf_frame _ _ _ houtB]
  · intro hl hb
    rw [resetHandler_001_fs, hl, hb]
    simp [wipeStep, rmRf_append, wipeTargets, List.any_append, Bool.not_or, Bool.and_assoc]

/-- C7 witness: the theorem applied to a concrete sandbox and to the
concrete path `/root/keepme`, which lies outside the declared wipe set
and survives the reset. -/
theorem C7_witness :
    wipeTargets.all (fun t => !(isUnder t "/root/keepme")) = true ∧
    (resetHandler_001 sbAllOk).fs "/root/keepme" = sbAllOk.fs "/root/keepme" ∧
    (resetHandler_001 sbAllOk).fs "/root/keepme" =
      (sbAllOk.fs "/root/keepme" && !(wipeTargets.any fun t => isUnder t "/root/keepme")) :=
  ⟨by decide, (C7_wipe_exact_scope sbAllOk "/root/keepme").2.2.2.1 (by decide),
    (C7_wipe_exact_scope sbAllOk "/root/keepme").2.2.2.2 rfl rfl⟩

/-- C8: whenever the terminate phase does not throw, the `part_001` reset
answers `ok` — in particular on a never-initialized or already-reset
filesystem, since absent wipe targets are never an error — and running
the reset a second time on the resulting state leaves every path exactly
as the first run left it. -/
theorem C8_reset_idempotent (sb : Sandbox) (p : String) (h : sb.killAllThrows = none) :
    (resetHandler_001 sb).response = resetOkJson ∧
    (resetHandler_001 { sb with fs := (resetHandler_001 sb).fs }).fs p =
      (resetHandler_001 sb).fs p := by
  constructor
  · simp [resetHandler_001, h]
  · rw [resetHandler_001_fs { sb with fs := (resetHandler_001 sb).fs }, resetHandler_001_fs sb]
    exact wipeSteps_idem _ _ _ _

/-- C8 witness: the theorem applied to a concrete sandbox, at the config
path that the first reset removes and the second finds already absent. -/
theorem C8_witness :
    (resetHandler_001 sbAllOk).response = resetOkJson ∧
    (resetHandler_001 { sbAllOk with fs := (resetHandler_001 sbAllOk).fs }).fs
        "/root/.openclaw/openclaw.json" =
      (resetHandler_001 sbAllOk).fs "/root/.openclaw/openclaw.json" :=
  C8_reset_idempotent sbAllOk "/root/.openclaw/openclaw.json" rfl

/-- C9: the reset route is registered with `.all`, so a GET (or any other
method) request to `/reset-factory-defaults` matches the route and runs
the full wipe-and-terminate sequence — the wipes are issued, the kill is
issued, and the config file is gone. -/
theorem C9_reset_triggered_by_get :
    routeMatches resetRouteMethod "GET" = true ∧
    routeMatches resetRouteMethod "PUT" = true ∧
    (resetHandler_001 sbAllOk).trace =
      [SbOp.startProcess localWipeCmd, SbOp.startProcess backupWipeCmd, SbOp.killAll] ∧
    (resetHandler_001 sbAllOk).fs "/root/.openclaw/openclaw.json" = false := by
  decide

/-- C10 (counterexample): the two reset handlers are not observationally
equivalent: on a fully succeeding sandbox state they issue their sandbox
operations in different orders (`part_000` kills first, `part_001` kills
last). -/
theorem C10_counterexample :
    (resetHandler_000 sbAllOk).trace ≠ (resetHandler_001 sbAllOk).trace ∧
    (resetHandler_000 sbAllOk).trace =
      [SbOp.killAll, SbOp.startProcess localWipeCmd, SbOp.startProcess backupWipeCmd] ∧
    (resetHandler_001 sbAllOk).trace =
      [SbOp.startProcess localWipeCmd, SbOp.startProcess backupWipeCmd, SbOp.killAll] := by
  decide

/-- C10 (amended): when every sandbox operation succeeds, the two reset
handlers return the same response, issue the same multiset of sandbox
operations (though in different orders), and leave every path of the
filesystem in the same state. -/
theorem C10_same_effect_when_no_failures (sb : Sandbox) (p : String)
    (h1 : sb.killAllThrows = none) (h2 : sb.startProcessThrows localWipeCmd = none)
    (h3 : sb.startProcessThrows backupWipeCmd = none) :
    (resetHandler_000 sb).response = (resetHandler_001 sb).response ∧
    (resetHandler_000 sb).trace.Perm ((resetHandler_001 sb).trace) ∧
    (resetHandler_000 sb).fs p = (resetHandler_001 sb).fs p := by
  refine ⟨?_, ?_, ?_⟩
  · simp [resetHandler_000, resetHandler_001, h1, h2, h3]
  · have e0 : (resetHandler_000 sb).trace =
        [SbOp.killAll, SbOp.startProcess localWipeCmd, SbOp.startProcess backupWipeCmd] := by
      simp [resetHandler_000, h1, h2, h3]
    have e1 : (resetHandler_001 sb).trace =
        [SbOp.startProcess localWipeCmd, SbOp.startProcess backupWipeCmd, SbOp.killAll] := by
      simp [resetHandler_001, h1]
    rw [e0, e1]
    decide
  · simp [resetHandler_000, resetHandler_001, h1, h2, h3]

/-- C10 witness: the amended theorem applied to a concrete fully
succeeding sandbox and a concrete path. -/
theorem C10_witness :
    (resetHandler_000 sbAllOk).response = (resetHandler_001 sbAllOk).response ∧
    (resetHandler_000 sbAllOk).trace.Perm ((resetHandler_001 sbAllOk).trace) ∧
    (resetHandler_000 sbAllOk).fs "/root/keepme" = (resetHandler_001 sbAllOk).fs "/root/keepme" :=
  C10_same_effect_when_no_failures sbAllOk "/root/keepme" rfl rfl rfl
